import Mathlib

/-!
Shallow embedding of the `/chat` handler of `app.py` (a Flask endpoint that
forwards a user message to an external retrieve-and-generate service and shapes
the result into a client-facing payload), together with theorems checking the
specification's claims about it.

Modelling conventions:
- Python strings are Lean `String`s viewed as their `List Char` data; Python
  slicing `s[:500]`, `len`, `.lower()`, `.strip()` and substring `in` are
  embedded as list operations on `s.data` (`pyStrip`, `pyLower`, `strContains`).
- Python dict `.get(key, default)` on optional keys is embedded as an `Option`
  field read with `Option.getD`; `ref['content']` (a mandatory key access) is a
  plain structure field.
- The external `client.retrieve_and_generate` call is an explicit parameter
  `service : GenerationRequest → Except String ExternalResult`; the handler
  returns, alongside its HTTP outcome, the list of requests it sent to the
  service (the invocation log), so that "the service is never invoked" and
  "no retry is attempted" are statable.
- The Python floats `0.0` and `0.99` are embedded as rationals; the handler
  only passes them through, no float arithmetic occurs.
-/

/-- Python `str.strip()`: drop whitespace from both ends (`user_message.strip()`). -/
def pyStrip (s : String) : String :=
  String.mk (((s.data.dropWhile Char.isWhitespace).reverse.dropWhile
    Char.isWhitespace).reverse)

/-- Python `str.lower()` (`user_message.lower()`). -/
def pyLower (s : String) : String :=
  String.mk (s.data.map Char.toLower)

/-- Helper for Python substring membership: is `needle` a contiguous sublist of `hay`? -/
def containsSubList (needle : List Char) : List Char → Bool
  | [] => needle.isEmpty
  | h :: t => needle.isPrefixOf (h :: t) || containsSubList needle t

/-- Python `needle in hay` on strings (substring containment). -/
def strContains (hay needle : String) : Bool :=
  containsSubList needle.data hay.data

/-- The `ref['content']` record: `{ 'text': ... }` where the `text` key may be absent
(`ref['content'].get('text', '')`). -/
structure Content where
  text : Option String
deriving Repr, DecidableEq

/-- The `ref['location']['s3Location']` record with an optional `uri` key. -/
structure S3Location where
  uri : Option String
deriving Repr, DecidableEq

/-- The `ref['location']` record with an optional `s3Location` key. -/
structure Location where
  s3Location : Option S3Location
deriving Repr, DecidableEq

/-- One retrieved reference as read by the handler: a mandatory `content` record
(`ref['content']`) and an optional `location` record (`ref.get('location', {})`). -/
structure RawReference where
  content : Content
  location : Option Location
deriving Repr, DecidableEq

/-- One citation: `citation.get('retrievedReferences', [])` — the key may be absent. -/
structure RawCitation where
  retrievedReferences : Option (List RawReference)
deriving Repr, DecidableEq

/-- The successful result of `client.retrieve_and_generate`:
`response['output']['text']` and `response.get('citations', [])`. -/
structure ExternalResult where
  output_text : String
  citations : Option (List RawCitation)
deriving Repr, DecidableEq

/-- A client-facing source entry `{"id": i, "snippet": content, "file": uri}`. -/
structure SourceEntry where
  id : Nat
  snippet : String
  file : String
deriving Repr, DecidableEq

/-- The fixed `SYSTEM_PROMPT` template string from `app.py` (configuration data;
its content plays no role in the shaping logic). -/
def SYSTEM_PROMPT : String :=
  "\nYou are Smriti, the JIBL Legal Bot — a friendly, professional, and highly reliable virtual assistant for Jio Insurance Broking Limited (JIBL).\nYour primary role is to help JIBL employees, partners, and POSPs with questions related to:\n- Insurance regulations\n- IRDAI guidelines\n- POSP rules\n- KYC and compliance\n- Insurance products and legal/regulatory interpretations\nYou are always warm, polite, approachable, and confident in your responses. You speak clearly and helpfully, as if assisting a real colleague.\nYou MUST answer every user message. You never refuse, deflect, or say you cannot help.\n────────────────────────\nIDENTITY & BASIC QUESTIONS\n────────────────────────\nIf the user greets you (e.g., casual greetings, time-based greetings) or asks identity-based questions such as:\n- Who are you?\n- What is your name?\n- What can you do?\n- What is your purpose?\n- How can you help me?\n\nYou should:\n- Respond with a warm greeting\n- Clearly introduce yourself as Smriti\n- Explain your purpose and capabilities in a simple, friendly way\n\nYour response should naturally combine greeting + identity + capability without sounding repetitive or robotic.\n────────────────────────\nANSWERING DOMAIN QUESTIONS\n────────────────────────\nFor any question related to insurance, IRDAI regulations, POSP rules, KYC, compliance, or related topics:\n- Provide a **clear, structured, and detailed explanation**\n- Prefer **bullet points, numbered lists, tables, or short sections**\n- Highlight important terms using <b>bold</b> where helpful\n- Assume the user may not be an expert — explain clearly but professionally\nAt the VERY END of every such answer, you MUST add exactly one line in this format:\n(Source: Result #1, #4)\n────────────────────────\nWHEN INFORMATION IS NOT AVAILABLE\n────────────────────────\nIf the question does not have relevant or available information:\nReply politely and helpfully, using wording similar to:\n\"I\x27m sorry, I don\x27t have information on that specific topic right now, but I\x27m here to help with anything related to IRDAI guidelines, POSP rules, KYC, or insurance regulations.\"\nDo NOT refuse the question.\nDo NOT say it is out of scope.\nDo NOT mention limitations or training data.\n────────────────────────\nSTRICT HTML RESPONSE FORMAT\n────────────────────────\nALL responses MUST be formatted using basic HTML tags only.\nUse the following layout rules:\n- Wrap the entire response in <div>\n- Use <h3> for headings\n- Use <p> for paragraphs\n- Use <ul> / <li> for lists\n- Use <b> for emphasis\n- Do NOT use markdown\n- Do NOT return plain text\nExample structure:\n<div>\n  <h3>Heading</h3>\n  <p>Explanation</p>\n  <ul>\n    <li>Point one</li>\n    <li>Point two</li>\n  </ul>\n</div>\n────────────────────────\nDETAILED ANSWERS BEHAVIOR\n────────────────────────\nUnless the question is a simple greeting:\n- Always provide a **complete and detailed answer**\n- Prefer clarity over brevity\n- Anticipate follow-up doubts and address them proactively\n- Avoid one-line or vague responses\n────────────────────────\nSTRICTLY FORBIDDEN PHRASES\n────────────────────────\nYou are NEVER allowed to say:\n- \"I cannot help with this\"\n- \"This is out of context\"\n- \"I am unable to assist\"\n- Any form of refusal or denial\nYou are always helpful, calm, and professional.\n────────────────────────\nCONTEXT INJECTION\n────────────────────────\n$search_results$\n$output_format_instructions$\n"

/-- The structured request sent to `client.retrieve_and_generate`: the user
message (`input.text`) plus the fixed generation and retrieval configuration.
`temperature` and `topP` are the Python floats `0.0` and `0.99`, embedded as
rationals. -/
structure GenerationRequest where
  inputText : String
  textPromptTemplate : String
  maxTokens : Nat
  temperature : Rat
  topP : Rat
  stopSequences : List String
  numberOfResults : Nat
deriving Repr, DecidableEq

/-- The request the handler sends to the external service for a given (already
stripped) `user_message`: all configuration fields are literal constants from
`app.py` lines 133-160. -/
def buildGenerationRequest (user_message : String) : GenerationRequest :=
  { inputText := user_message
  , textPromptTemplate := SYSTEM_PROMPT
  , maxTokens := 6000
  , temperature := 0.0
  , topP := 0.99
  , stopSequences := []
  , numberOfResults := 10 }

/-- The JSON body of `POST /chat`: `request.json.get("message", "")` — the
`message` key may be absent. -/
structure ChatRequest where
  message : Option String
deriving Repr, DecidableEq

/-- Observable HTTP outcome of the handler: `400 {"error": "Empty message"}`,
`200 {"reply": ..., "sources": [...]}`, or `500 {"error": str(e)}`. Each
constructor carries exactly the JSON fields the corresponding body has. -/
inductive ChatOutcome where
  | badRequest (error : String)
  | success (reply : String) (sources : List SourceEntry)
  | serverError (error : String)
deriving Repr, DecidableEq

/-- The `greeting_keywords` list from `app.py` lines 165-168. -/
def greeting_keywords : List String :=
  ["hi", "hello", "hii", "hey", "good morning", "good afternoon", "good evening",
   "what is your name", "who are you", "what can you do", "your name", "how are you"]

/-- The greeting test of `app.py` lines 169-171:
`any(keyword in user_message.lower().strip() for keyword in greeting_keywords)`. -/
def isGreeting (user_message : String) : Bool :=
  let user_lower := pyStrip (pyLower user_message)
  greeting_keywords.any (fun keyword => strContains user_lower keyword)

/-- Line 178: `ref['content'].get('text', '')[:500] + ("..." if len(...) > 500 else "")`. -/
def mkSnippet (text : String) : String :=
  String.mk (text.data.take 500) ++ (if 500 < text.data.length then "..." else "")

/-- Line 179: `ref.get('location', {}).get('s3Location', {}).get('uri', 'N/A')`. -/
def mkFile (ref : RawReference) : String :=
  (((ref.location.getD { s3Location := none }).s3Location.getD
    { uri := none }).uri.getD "N/A")

/-- The dict appended for one reference at citation index `i` (lines 180-184). -/
def mkEntry (i : Nat) (ref : RawReference) : SourceEntry :=
  { id := i
  , snippet := mkSnippet (ref.content.text.getD "")
  , file := mkFile ref }

/-- Line 177: `citation.get('retrievedReferences', [])`. -/
def refsOf (citation : RawCitation) : List RawReference :=
  citation.retrievedReferences.getD []

/-- Line 176: `response.get('citations', [])`. -/
def citationsOf (response : ExternalResult) : List RawCitation :=
  response.citations.getD []

/-- The source-extraction double loop of lines 175-184, with the citation
counter starting at `i` (the code starts it at 1 via `enumerate(..., 1)`):
for each citation in order, append one entry per retrieved reference. -/
def shapeLoop (i : Nat) : List RawCitation → List SourceEntry
  | [] => []
  | citation :: rest => (refsOf citation).map (mkEntry i) ++ shapeLoop (i + 1) rest

/-- The full `sources` list built for a non-greeting message. -/
def shapeSources (citations : List RawCitation) : List SourceEntry :=
  shapeLoop 1 citations

/-- The `/chat` handler (`app.py` lines 126-192). Returns the HTTP outcome and
the list of generation requests actually sent to the external service. -/
def chat (req : ChatRequest) (service : GenerationRequest → Except String ExternalResult) :
    ChatOutcome × List GenerationRequest :=
  let user_message := pyStrip (req.message.getD "")
  if user_message = "" then
    (ChatOutcome.badRequest "Empty message", [])
  else
    match service (buildGenerationRequest user_message) with
    | Except.error e => (ChatOutcome.serverError e, [buildGenerationRequest user_message])
    | Except.ok response =>
        (ChatOutcome.success response.output_text
          (if isGreeting user_message then [] else shapeSources (citationsOf response)),
         [buildGenerationRequest user_message])

/-- Per-citation reference counts, in citation order. -/
def refCounts (citations : List RawCitation) : List Nat :=
  citations.map (fun citation => (refsOf citation).length)

/-- Total number of retrieved references across all citations. -/
def totalRefs (citations : List RawCitation) : Nat :=
  (refCounts citations).sum

/-- Given the per-citation reference counts, the 0-based index of the citation
enclosing the `k`-th reference of the flattened (encounter-order) sequence. -/
def citIdx : List Nat → Nat → Nat
  | [], _ => 0
  | c :: rest, k => if k < c then 0 else citIdx rest (k - c) + 1

/-- The 1-based ordinal of the citation enclosing the `k`-th flattened reference. -/
def citOrdinal (counts : List Nat) (k : Nat) : Nat :=
  citIdx counts k + 1

/-- The origin locator of a reference, read through the optional
`location` / `s3Location` / `uri` chain. -/
def originLocator (ref : RawReference) : Option String :=
  ref.location.bind (fun l => l.s3Location.bind (fun s => s.uri))

/-- Concrete reference with a 5-character text and an origin locator. -/
def exRefA : RawReference :=
  { content := { text := some "alpha" }
  , location := some { s3Location := some { uri := some "s3://a" } } }

/-- Concrete reference with a text but no location record at all. -/
def exRefB : RawReference :=
  { content := { text := some "beta" }, location := none }

/-- Concrete reference whose content record lacks the `text` key. -/
def exRefC : RawReference :=
  { content := { text := none }, location := none }

/-- Concrete external result: one citation holding two references. -/
def exResult : ExternalResult :=
  { output_text := "ans"
  , citations := some [{ retrievedReferences := some [exRefA, exRefB] }] }

/-- Concrete service that always succeeds with `exResult`. -/
def exService : GenerationRequest → Except String ExternalResult :=
  fun _ => Except.ok exResult

/-- Concrete service that always fails. -/
def exFailService : GenerationRequest → Except String ExternalResult :=
  fun _ => Except.error "boom"

/-! ### Helper lemmas -/

theorem strData_append (s t : String) : (s ++ t).data = s.data ++ t.data := by
  cases s; cases t; rfl

theorem strLength_append (s t : String) : (s ++ t).length = s.length + t.length := by
  show (s ++ t).data.length = s.data.length + t.data.length
  rw [strData_append]
  exact List.length_append _ _

theorem pairwise_of_total {α : Type} {R : α → α → Prop} (h : ∀ a b, R a b) :
    ∀ l : List α, l.Pairwise R
  | [] => List.Pairwise.nil
  | a :: t => List.Pairwise.cons (fun b _ => h a b) (pairwise_of_total h t)

theorem refCounts_cons (c : RawCitation) (rest : List RawCitation) :
    refCounts (c :: rest) = (refsOf c).length :: refCounts rest := rfl

theorem totalRefs_cons (c : RawCitation) (rest : List RawCitation) :
    totalRefs (c :: rest) = (refsOf c).length + totalRefs rest := by
  simp [totalRefs, refCounts_cons]

theorem shapeLoop_length (i : Nat) (cs : List RawCitation) :
    (shapeLoop i cs).length = totalRefs cs := by
  induction cs generalizing i with
  | nil => rfl
  | cons c rest ih =>
    rw [shapeLoop, List.length_append, List.length_map, totalRefs_cons, ih]

theorem shapeLoop_id_get (i k : Nat) (cs : List RawCitation) (hk : k < totalRefs cs) :
    ((shapeLoop i cs).map SourceEntry.id)[k]? = some (i + citIdx (refCounts cs) k) := by
  induction cs generalizing i k with
  | nil => simp [totalRefs, refCounts] at hk
  | cons c rest ih =>
    rw [shapeLoop, List.map_append, refCounts_cons]
    by_cases h : k < (refsOf c).length
    · rw [List.getElem?_append_left (by simpa using h)]
      rw [List.map_map, List.getElem?_map, List.getElem?_eq_getElem h]
      simp [mkEntry, citIdx, h]
    · rw [List.getElem?_append_right (by simpa using Nat.le_of_not_lt h)]
      have hk' : k - (refsOf c).length < totalRefs rest := by
        rw [totalRefs_cons] at hk; omega
      simp only [List.length_map]
      rw [ih (i + 1) (k - (refsOf c).length) hk']
      simp [citIdx, h]
      omega

theorem shapeLoop_mem (i : Nat) (cs : List RawCitation) (e : SourceEntry)
    (he : e ∈ shapeLoop i cs) :
    ∃ j, ∃ hj : j < cs.length, ∃ ref ∈ refsOf (cs.get ⟨j, hj⟩), e = mkEntry (i + j) ref := by
  induction cs generalizing i with
  | nil => simp [shapeLoop] at he
  | cons c rest ih =>
    rw [shapeLoop, List.mem_append] at he
    rcases he with h | h
    · rcases List.mem_map.1 h with ⟨ref, hr, rfl⟩
      exact ⟨0, by simp, ref, by simpa using hr, by simp⟩
    · rcases ih (i + 1) h with ⟨j, hj, ref, hr, hre⟩
      refine ⟨j + 1, by simpa using hj, ref, by simpa using hr, ?_⟩
      rw [hre]
      congr 1
      omega

theorem shapeLoop_pairwise (i : Nat) (cs : List RawCitation) :
    (shapeLoop i cs).Pairwise (fun a b => a.id ≤ b.id) := by
  induction cs generalizing i with
  | nil => exact List.Pairwise.nil
  | cons c rest ih =>
    rw [shapeLoop]
    refine List.pairwise_append.2 ⟨?_, ih (i + 1), ?_⟩
    · exact List.pairwise_map.2 (pairwise_of_total (fun _ _ => le_refl i) _)
    · intro a ha b hb
      rcases List.mem_map.1 ha with ⟨r, _, rfl⟩
      rcases shapeLoop_mem (i + 1) rest b hb with ⟨j, _, _, _, rfl⟩
      show (mkEntry i r).id ≤ (mkEntry (i + 1 + j) _).id
      simp [mkEntry]
      omega

theorem chat_ok_eq (msg : Option String)
    (service : GenerationRequest → Except String ExternalResult) (r : ExternalResult)
    (hne : pyStrip (msg.getD "") ≠ "")
    (hs : service (buildGenerationRequest (pyStrip (msg.getD ""))) = Except.ok r) :
    chat ⟨msg⟩ service =
      (ChatOutcome.success r.output_text
        (if isGreeting (pyStrip (msg.getD "")) then [] else shapeSources (citationsOf r)),
       [buildGenerationRequest (pyStrip (msg.getD ""))]) := by
  simp [chat, hne, hs]

/-! ### Claim theorems -/

/-- C1: for every non-empty message not matching any greeting substring, on which
the external service succeeds, the returned sources list has length equal to the
total number of references across all citations (flattened in encounter order),
and the entry at flattened position `k` has as `id` the 1-based ordinal of its
enclosing citation — not a global running counter over references. -/
theorem c1_sources_length_and_citation_ordinal_id
    (msg : Option String) (service : GenerationRequest → Except String ExternalResult)
    (r : ExternalResult)
    (hne : pyStrip (msg.getD "") ≠ "")
    (hng : isGreeting (pyStrip (msg.getD "")) = false)
    (hs : service (buildGenerationRequest (pyStrip (msg.getD ""))) = Except.ok r) :
    ∃ s : List SourceEntry,
      (chat ⟨msg⟩ service).1 = ChatOutcome.success r.output_text s ∧
      s.length = totalRefs (citationsOf r) ∧
      ∀ k : Nat, k < totalRefs (citationsOf r) →
        (s.map SourceEntry.id)[k]? = some (citOrdinal (refCounts (citationsOf r)) k) := by
  refine ⟨shapeSources (citationsOf r), ?_, ?_, ?_⟩
  · rw [chat_ok_eq msg service r hne hs]
    simp [hng]
  · exact shapeLoop_length 1 _
  · intro k hk
    rw [shapeSources, shapeLoop_id_get 1 k _ hk, citOrdinal]
    congr 1
    omega

/-- C1 witness: the theorem applied to the concrete message `"KYC rules"` and a
service returning one citation with two references. -/
theorem c1_witness :
    ∃ s : List SourceEntry,
      (chat ⟨some "KYC rules"⟩ exService).1 = ChatOutcome.success exResult.output_text s ∧
      s.length = totalRefs (citationsOf exResult) ∧
      ∀ k : Nat, k < totalRefs (citationsOf exResult) →
        (s.map SourceEntry.id)[k]? = some (citOrdinal (refCounts (citationsOf exResult)) k) :=
  c1_sources_length_and_citation_ordinal_id (some "KYC rules") exService exResult
    (by decide) (by decide) rfl

/-- C2 counterexample: at the concrete non-greeting message `"POSP rules?"` with
an external result holding one citation with two references, the second entry of
the flattened sources list has id 1, not 2 — so ids are not sequential across
all references in encounter order. -/
theorem c2_counterexample_id_not_global_counter :
    (chat ⟨some "POSP rules?"⟩ exService).1 =
      ChatOutcome.success "ans"
        [{ id := 1, snippet := "alpha", file := "s3://a" },
         { id := 1, snippet := "beta", file := "N/A" }] ∧
    (1 : Nat) ≠ 2 :=
  ⟨by decide, by decide⟩

/-- C2 (amended): in every successful non-greeting response, each source entry's
id equals the 1-based ordinal of its enclosing citation (all references within
one citation share that citation's index), rather than being a 1-based global
running counter across references. -/
theorem c2_amended_id_is_enclosing_citation_ordinal
    (msg : Option String) (service : GenerationRequest → Except String ExternalResult)
    (r : ExternalResult)
    (hne : pyStrip (msg.getD "") ≠ "")
    (hng : isGreeting (pyStrip (msg.getD "")) = false)
    (hs : service (buildGenerationRequest (pyStrip (msg.getD ""))) = Except.ok r) :
    ∃ s : List SourceEntry,
      (chat ⟨msg⟩ service).1 = ChatOutcome.success r.output_text s ∧
      ∀ e ∈ s, ∃ j, ∃ hj : j < (citationsOf r).length,
        e.id = j + 1 ∧ ∃ ref ∈ refsOf ((citationsOf r).get ⟨j, hj⟩), e = mkEntry (j + 1) ref := by
  refine ⟨shapeSources (citationsOf r), ?_, ?_⟩
  · rw [chat_ok_eq msg service r hne hs]
    simp [hng]
  · intro e he
    rcases shapeLoop_mem 1 (citationsOf r) e he with ⟨j, hj, ref, hr, rfl⟩
    refine ⟨j, hj, ?_, ref, hr, ?_⟩
    · show (mkEntry (1 + j) ref).id = j + 1
      simp only [mkEntry]
      omega
    · congr 1
      omega

/-- C2 (amended) witness: the amended theorem applied to the concrete message
`"POSP norms"` and a service returning one citation with two references. -/
theorem c2_amended_witness :
    ∃ s : List SourceEntry,
      (chat ⟨some "POSP norms"⟩ exService).1 = ChatOutcome.success exResult.output_text s ∧
      ∀ e ∈ s, ∃ j, ∃ hj : j < (citationsOf exResult).length,
        e.id = j + 1 ∧
        ∃ ref ∈ refsOf ((citationsOf exResult).get ⟨j, hj⟩), e = mkEntry (j + 1) ref :=
  c2_amended_id_is_enclosing_citation_ordinal (some "POSP norms") exService exResult
    (by decide) (by decide) rfl

/-- C3: for every non-empty trimmed message whose lowercased trimmed form
contains, as a substring, one of the twelve greeting/identity keywords, the
response's sources list is empty — even when the external result carries
citations; matching is substring containment, not whole-word match. -/
theorem c3_greeting_suppresses_sources
    (msg : Option String) (service : GenerationRequest → Except String ExternalResult)
    (r : ExternalResult)
    (hne : pyStrip (msg.getD "") ≠ "")
    (hg : ∃ keyword ∈ greeting_keywords,
      strContains (pyStrip (pyLower (pyStrip (msg.getD "")))) keyword = true)
    (hs : service (buildGenerationRequest (pyStrip (msg.getD ""))) = Except.ok r) :
    (chat ⟨msg⟩ service).1 = ChatOutcome.success r.output_text [] := by
  have hgr : isGreeting (pyStrip (msg.getD "")) = true := by
    rcases hg with ⟨kw, hmem, hkw⟩
    simp only [isGreeting]
    exact List.any_eq_true.2 ⟨kw, hmem, hkw⟩
  rw [chat_ok_eq msg service r hne hs]
  simp [hgr]

/-- C3 witness: the message `"explain this clause"` contains `"hi"` inside the
word `"this"` (substring, not whole-word, matching), and the service result
`exResult` carries a citation with two references; sources still come back
empty. -/
theorem c3_witness :
    (chat ⟨some "explain this clause"⟩ exService).1 =
      ChatOutcome.success "ans" [] :=
  c3_greeting_suppresses_sources (some "explain this clause") exService exResult
    (by decide) ⟨"hi", by decide, by decide⟩ rfl

/-- C4: the snippet of a reference text is the first 500 characters, with
`"..."` appended exactly when the text is longer than 500 characters: a text of
at most 500 characters (in particular exactly 500) is returned unchanged with no
ellipsis, a longer text yields its first 500 characters followed by `"..."`, and
the snippet never exceeds 503 characters. -/
theorem c4_snippet_truncation (text : String) :
    (text.length ≤ 500 → mkSnippet text = text) ∧
    (500 < text.length → mkSnippet text = String.mk (text.data.take 500) ++ "...") ∧
    (mkSnippet text).length ≤ 503 := by
  refine ⟨?_, ?_, ?_⟩
  · intro h
    have hno : ¬ 500 < text.data.length := Nat.not_lt.2 h
    rw [mkSnippet, if_neg hno]
    cases text with
    | mk l =>
      show String.mk ((l.take 500).append []) = String.mk l
      rw [show (l.take 500).append [] = l.take 500 ++ [] from rfl, List.append_nil,
        List.take_of_length_le h]
  · intro h
    rw [mkSnippet, if_pos (show 500 < text.data.length from h)]
  · rw [mkSnippet, strLength_append]
    have h1 : (String.mk (text.data.take 500)).length ≤ 500 := by
      show (text.data.take 500).length ≤ 500
      rw [List.length_take]
      exact min_le_left _ _
    by_cases h : 500 < text.data.length
    · rw [if_pos h]
      have h3 : ("..." : String).length = 3 := rfl
      omega
    · rw [if_neg h]
      have h0 : ("" : String).length = 0 := rfl
      omega

/-- C4 witness: the theorem applied at a text of exactly 500 characters (kept
unchanged, no ellipsis) and at one of 501 characters (truncated with ellipsis,
length within 503). -/
theorem c4_witness :
    mkSnippet (String.mk (List.replicate 500 (Char.ofNat 97))) =
      String.mk (List.replicate 500 (Char.ofNat 97)) ∧
    mkSnippet (String.mk (List.replicate 501 (Char.ofNat 97))) =
      String.mk ((String.mk (List.replicate 501 (Char.ofNat 97))).data.take 500) ++ "..." ∧
    (mkSnippet (String.mk (List.replicate 501 (Char.ofNat 97)))).length ≤ 503 :=
  ⟨(c4_snippet_truncation _).1
    (by show (List.replicate 500 (Char.ofNat 97)).length ≤ 500
        rw [List.length_replicate]),
   (c4_snippet_truncation _).2.1
    (by show 500 < (List.replicate 501 (Char.ofNat 97)).length
        rw [List.length_replicate]
        omega),
   (c4_snippet_truncation _).2.2⟩

/-- C5: a request whose `message` field is absent, or empty after stripping
surrounding whitespace, is answered with the 400 outcome and body error
`"Empty message"`, and the external service is never invoked (the invocation
log is empty). -/
theorem c5_empty_message_rejected
    (msg : Option String) (service : GenerationRequest → Except String ExternalResult)
    (h : pyStrip (msg.getD "") = "") :
    chat ⟨msg⟩ service = (ChatOutcome.badRequest "Empty message", []) := by
  simp [chat, h]

/-- C5 witness: the theorem applied at an absent `message` and at a
whitespace-only `message`. -/
theorem c5_witness :
    chat ⟨none⟩ exService = (ChatOutcome.badRequest "Empty message", []) ∧
    chat ⟨some " \t "⟩ exService = (ChatOutcome.badRequest "Empty message", []) :=
  ⟨c5_empty_message_rejected none exService (by decide),
   c5_empty_message_rejected (some " \t ") exService (by decide)⟩

/-- C6: when the external call fails with any failure description `e`, the
handler answers the 500 outcome whose only field is that description (the
constructor carries no reply and no sources), and the invocation log has exactly
one request — no retry, and no discrimination on the kind of failure (`e` is
arbitrary). -/
theorem c6_failure_yields_500
    (msg : Option String) (service : GenerationRequest → Except String ExternalResult)
    (e : String)
    (hne : pyStrip (msg.getD "") ≠ "")
    (hs : service (buildGenerationRequest (pyStrip (msg.getD ""))) = Except.error e) :
    chat ⟨msg⟩ service =
      (ChatOutcome.serverError e, [buildGenerationRequest (pyStrip (msg.getD ""))]) := by
  simp [chat, hne, hs]

/-- C6 witness: the theorem applied to a concrete message and a service that
always fails with `"boom"`. -/
theorem c6_witness :
    chat ⟨some "KYC norms"⟩ exFailService =
      (ChatOutcome.serverError "boom", [buildGenerationRequest "KYC norms"]) :=
  c6_failure_yields_500 (some "KYC norms") exFailService "boom" (by decide) rfl

/-- C7: the `file` field of a produced source entry is the reference's origin
locator verbatim when the `location`/`s3Location`/`uri` chain is present, and
exactly the literal string `"N/A"` when the locator is absent anywhere along
that chain. -/
theorem c7_file_is_locator_or_na (i : Nat) (ref : RawReference) :
    (∀ u : String, originLocator ref = some u → (mkEntry i ref).file = u) ∧
    (originLocator ref = none → (mkEntry i ref).file = "N/A") := by
  constructor
  · intro u hu
    rcases ref with ⟨c, _ | ⟨_ | ⟨_ | u2⟩⟩⟩ <;>
      simp_all [originLocator, mkEntry, mkFile]
  · intro hn
    rcases ref with ⟨c, _ | ⟨_ | ⟨_ | u2⟩⟩⟩ <;>
      simp_all [originLocator, mkEntry, mkFile]

/-- C7 witness: the theorem applied to a reference carrying the locator
`"s3://a"` and to one with no location record at all. -/
theorem c7_witness :
    (mkEntry 1 exRefA).file = "s3://a" ∧ (mkEntry 2 exRefB).file = "N/A" :=
  ⟨(c7_file_is_locator_or_na 1 exRefA).1 "s3://a" rfl,
   (c7_file_is_locator_or_na 2 exRefB).2 rfl⟩

/-- C8: for every message that is non-empty after stripping, the handler sends
exactly one generation request, which embeds the stripped message verbatim as
`inputText` and carries the fixed constants `maxTokens = 6000`,
`temperature = 0.0`, `topP = 0.99`, empty `stopSequences` and
`numberOfResults = 10`, whatever the service then does. -/
theorem c8_request_embeds_message_with_fixed_constants
    (msg : Option String) (service : GenerationRequest → Except String ExternalResult)
    (hne : pyStrip (msg.getD "") ≠ "") :
    (chat ⟨msg⟩ service).2 =
      [{ inputText := pyStrip (msg.getD "")
       , textPromptTemplate := SYSTEM_PROMPT
       , maxTokens := 6000
       , temperature := 0.0
       , topP := 0.99
       , stopSequences := []
       , numberOfResults := 10 }] := by
  cases hcall : service (buildGenerationRequest (pyStrip (msg.getD ""))) with
  | error e =>
      simp [chat, hne, hcall]
      simp [buildGenerationRequest]
  | ok r =>
      simp [chat, hne, hcall]
      simp [buildGenerationRequest]

/-- C8 witness: the theorem applied to the concrete message `"KYC limits"`. -/
theorem c8_witness :
    (chat ⟨some "KYC limits"⟩ exService).2 =
      [{ inputText := "KYC limits"
       , textPromptTemplate := SYSTEM_PROMPT
       , maxTokens := 6000
       , temperature := 0.0
       , topP := 0.99
       , stopSequences := []
       , numberOfResults := 10 }] :=
  c8_request_embeds_message_with_fixed_constants (some "KYC limits") exService (by decide)

/-- C9: a reference whose content record lacks the `text` key does not make the
shaper fail: it still yields exactly one source entry, whose snippet is the
empty string with no ellipsis appended. -/
theorem c9_missing_text_yields_empty_snippet (ref : RawReference)
    (h : ref.content.text = none) :
    shapeSources [{ retrievedReferences := some [ref] }] = [mkEntry 1 ref] ∧
    (mkEntry 1 ref).snippet = "" := by
  constructor
  · rfl
  · show mkSnippet (ref.content.text.getD "") = ""
    rw [h]
    rfl

/-- C9 witness: the theorem applied to the concrete reference whose content
record has no `text` key. -/
theorem c9_witness :
    shapeSources [{ retrievedReferences := some [exRefC] }] = [mkEntry 1 exRefC] ∧
    (mkEntry 1 exRefC).snippet = "" :=
  c9_missing_text_yields_empty_snippet exRefC rfl

/-- C10: in every successful non-greeting response, the ids along the sources
list are non-decreasing in list order, and every id lies between 1 and the
number of citations of the external result, inclusive. -/
theorem c10_ids_monotone_and_bounded
    (msg : Option String) (service : GenerationRequest → Except String ExternalResult)
    (r : ExternalResult)
    (hne : pyStrip (msg.getD "") ≠ "")
    (hng : isGreeting (pyStrip (msg.getD "")) = false)
    (hs : service (buildGenerationRequest (pyStrip (msg.getD ""))) = Except.ok r) :
    ∃ s : List SourceEntry,
      (chat ⟨msg⟩ service).1 = ChatOutcome.success r.output_text s ∧
      s.Pairwise (fun a b => a.id ≤ b.id) ∧
      ∀ e ∈ s, 1 ≤ e.id ∧ e.id ≤ (citationsOf r).length := by
  refine ⟨shapeSources (citationsOf r), ?_, ?_, ?_⟩
  · rw [chat_ok_eq msg service r hne hs]
    simp [hng]
  · exact shapeLoop_pairwise 1 _
  · intro e he
    rcases shapeLoop_mem 1 (citationsOf r) e he with ⟨j, hj, ref, _, rfl⟩
    have hid : (mkEntry (1 + j) ref).id = 1 + j := rfl
    rw [hid]
    omega

/-- C10 witness: the theorem applied to the concrete message `"IRDAI norms"`
and a service returning one citation with two references. -/
theorem c10_witness :
    ∃ s : List SourceEntry,
      (chat ⟨some "IRDAI norms"⟩ exService).1 = ChatOutcome.success exResult.output_text s ∧
      s.Pairwise (fun a b => a.id ≤ b.id) ∧
      ∀ e ∈ s, 1 ≤ e.id ∧ e.id ≤ (citationsOf exResult).length :=
  c10_ids_monotone_and_bounded (some "IRDAI norms") exService exResult
    (by decide) (by decide) rfl
